import Mathlib

/-!
Verification of the generic-proxy routing core (virtual-host resolution,
match-tree evaluation, route entries, per-filter configuration, and the
fail-fast configuration builder).

The routing implementation itself is not part of the available sources
(only its unit tests are, in
contrib/generic_proxy/filters/network/test/route_test.cc), so the
definitions below are modelled from the specification, with the test
file supplying the concrete configurations, requests, and error
messages. Machine strings are Lean String values; the handful of
character-level operations (prefix/suffix tests) are defined over the
underlying character lists so that everything evaluates inside the
kernel.
-/

namespace GenericProxy

/-- Character-level prefix test on strings. -/
def strStartsWith (s p : String) : Bool := p.data.isPrefixOf s.data

/-- Character-level suffix test on strings. -/
def strEndsWith (s p : String) : Bool := p.data.isSuffixOf s.data

/-- Drop the last character of a string (used to strip a trailing wildcard). -/
def strDropLast (s : String) : String := String.mk s.data.dropLast

/-- Drop the first character of a string (used to strip a leading wildcard). -/
def strDropFirst (s : String) : String := String.mk (s.data.drop 1)

/-- Modelled from the spec: the request accessor contract provided by the
codec collaborator. A request carries a host (service) string, a method
string, and arbitrary key/value properties. Mirrors
FakeStreamCodecFactory::FakeRequest of the test file (host_, method_,
data_). -/
structure Request where
  host : String
  method : String
  data : List (String × String)
deriving DecidableEq, Repr

/-- Property lookup on a request: first value bound to the key, if any. -/
def Request.property (r : Request) (key : String) : Option String :=
  (r.data.find? (fun p => p.1 == key)).map Prod.snd

/-- Modelled from the spec: the built-in DataInput kinds {host, method,
property}, each mapping a request to an optional string. -/
inductive DataInput where
  | hostInput
  | methodInput
  | propertyInput (key : String)
deriving DecidableEq, Repr

/-- Modelled from the spec: evaluating a DataInput against a request yields
an optional string; an unavailable value (absent property) is a valid,
non-error result. -/
def DataInput.eval : DataInput → Request → Option String
  | .hostInput, r => some r.host
  | .methodInput, r => some r.method
  | .propertyInput key, r => r.property key

/-- A reference to a DataInput inside a configuration descriptor: an
extension name plus the property-key parameter carried by the typed
config (ignored by the host and method inputs). -/
structure DataInputRef where
  name : String
  propertyKey : String
deriving DecidableEq, Repr

/-- Modelled from the spec: lookup of a DataInput extension by name in the
registry. Exactly the three built-in generic-proxy inputs are
registered; every other name is unknown. -/
def resolveDataInput (ref : DataInputRef) : Option DataInput :=
  if ref.name = "envoy.matching.generic_proxy.input.host" then some .hostInput
  else if ref.name = "envoy.matching.generic_proxy.input.method" then some .methodInput
  else if ref.name = "envoy.matching.generic_proxy.input.property" then
    some (.propertyInput ref.propertyKey)
  else none

/-- Modelled from the spec: match-tree predicate node of a configuration
descriptor, a tagged variant of And(children), Or(children), and
Single(input reference, exact value matcher). -/
inductive ProtoPredicate where
  | andMatcher (cs : List ProtoPredicate)
  | orMatcher (cs : List ProtoPredicate)
  | singlePredicate (input : DataInputRef) (exactMatch : String)

/-- Modelled from the spec: built match-tree predicate node, identical in
shape but with every DataInput reference resolved at build time. -/
inductive Predicate where
  | andP (cs : List Predicate)
  | orP (cs : List Predicate)
  | singleP (input : DataInput) (exactMatch : String)

mutual

/-- Modelled from the spec: depth-first, short-circuiting evaluation of a
match-tree predicate. A Single predicate invokes its DataInput and
compares with the exact-value matcher; an unavailable input evaluates
false. -/
def evalPredicate (r : Request) : Predicate → Bool
  | .andP cs => evalPredicateAll r cs
  | .orP cs => evalPredicateAny r cs
  | .singleP input v => DataInput.eval input r == some v

/-- Short-circuiting conjunction over the children of an And node. -/
def evalPredicateAll (r : Request) : List Predicate → Bool
  | [] => true
  | c :: rest => evalPredicate r c && evalPredicateAll r rest

/-- Short-circuiting disjunction over the children of an Or node. -/
def evalPredicateAny (r : Request) : List Predicate → Bool
  | [] => false
  | c :: rest => evalPredicate r c || evalPredicateAny r rest

end

/-- Status returned by a validation visitor: acceptance, or rejection with
a message naming the offending input. -/
inductive ValidationStatus where
  | okStatus
  | rejected (message : String)
deriving DecidableEq, Repr

/-- Identity of a DataInput extension factory, as seen by the validation
visitor. -/
structure DataInputFactoryId where
  name : String
deriving DecidableEq, Repr

/-- The built-in service/host match DataInput factory. -/
def serviceMatchDataInputFactory : DataInputFactoryId :=
  { name := "envoy.matching.generic_proxy.input.host" }

/-- The built-in method match DataInput factory. -/
def methodMatchDataInputFactory : DataInputFactoryId :=
  { name := "envoy.matching.generic_proxy.input.method" }

/-- The built-in property match DataInput factory. -/
def propertyMatchDataInputFactory : DataInputFactoryId :=
  { name := "envoy.matching.generic_proxy.input.property" }

/-- Modelled from the spec: the routing-context validation visitor runs
once per Single node during the build and rejects DataInput kinds
disallowed in this routing context; the built-in generic-proxy inputs
(host/service, method, property) are allowed for any type url. -/
def performDataInputValidation (factory : DataInputFactoryId)
    (typeUrl : String) : ValidationStatus :=
  if factory.name = "envoy.matching.generic_proxy.input.host"
      ∨ factory.name = "envoy.matching.generic_proxy.input.method"
      ∨ factory.name = "envoy.matching.generic_proxy.input.property" then
    .okStatus
  else
    .rejected (factory.name ++ " disallowed for type url " ++ typeUrl)

/-- Modelled from the spec: a filter-defined opaque PerFilterConfig object,
identified here by the token the factory produced. -/
structure PerFilterConfig where
  token : Nat
deriving DecidableEq, Repr

/-- Modelled from the spec: a per-route filter configuration factory. The
factory may decline to supply an empty route-config proto (so the blob
cannot be loaded at all), and may produce no object from a blob. -/
structure FilterConfigFactory where
  hasRouteConfigProto : Bool
  createRouteSpecificFilterConfig : String → Option PerFilterConfig

/-- Modelled from the spec: the externally supplied, filter-name-keyed
factory registry. -/
def FilterFactoryRegistry := String → Option FilterConfigFactory

/-- Registry with no filter factories registered. -/
def emptyFilterRegistry : FilterFactoryRegistry := fun _ => none

/-- What one factory builds from one configuration blob: nothing when the
factory supplies no empty route-config proto, and otherwise whatever
createRouteSpecificFilterConfig produces. -/
def makeFilterConfig (f : FilterConfigFactory) (blob : String) : Option PerFilterConfig :=
  if f.hasRouteConfigProto then f.createRouteSpecificFilterConfig blob else none

/-- Modelled from the spec: construction-time resolution of the per-filter
configuration blobs against the registry. Unregistered filter names and
factories producing no object silently contribute nothing. -/
def buildPerFilterConfigs (reg : FilterFactoryRegistry) :
    List (String × String) → List (String × PerFilterConfig)
  | [] => []
  | (n, blob) :: rest =>
    match reg n with
    | none => buildPerFilterConfigs reg rest
    | some f =>
      match makeFilterConfig f blob with
      | none => buildPerFilterConfigs reg rest
      | some c => (n, c) :: buildPerFilterConfigs reg rest

/-- Modelled from the spec: the descriptor of a RouteAction: cluster name,
filter-keyed metadata, and per-filter configuration blobs. -/
structure ProtoRouteAction where
  cluster : String
  metadata : List (String × List (String × String))
  per_filter_config : List (String × String)

/-- Modelled from the spec: the terminal routing record. The identity
field models object identity of the shared, reference-counted instance:
the builder assigns a distinct identity to every RouteEntry it
constructs, so equal identity means the very same built instance. -/
structure RouteEntry where
  identity : Nat
  clusterName : String
  metadata : List (String × List (String × String))
  perFilterConfigs : List (String × PerFilterConfig)
deriving DecidableEq, Repr

/-- Modelled from the spec: perFilterConfig returns the object built at
construction time for the filter name, or none. -/
def RouteEntry.perFilterConfig (e : RouteEntry) (name : String) : Option PerFilterConfig :=
  (e.perFilterConfigs.find? (fun p => p.1 == name)).map Prod.snd

/-- Modelled from the spec: RouteEntryImpl construction from a
ProtoRouteAction: the cluster name and metadata are copied and the
per-filter configurations are resolved once, at construction time. -/
def buildRouteEntry (reg : FilterFactoryRegistry) (identity : Nat)
    (proto : ProtoRouteAction) : RouteEntry :=
  { identity := identity
    clusterName := proto.cluster
    metadata := proto.metadata
    perFilterConfigs := buildPerFilterConfigs reg proto.per_filter_config }

/-- Modelled from the spec: RouteMatchAction wraps a shared RouteEntry
reference. -/
structure RouteMatchAction where
  route : RouteEntry
deriving DecidableEq, Repr

/-- Modelled from the spec: the RouteMatchAction factory callback builds
the RouteEntry once and every invocation of the callback returns an
action wrapping that same instance; the argument counts the
invocation. -/
def createActionFactoryCb (reg : FilterFactoryRegistry)
    (proto : ProtoRouteAction) : Nat → RouteMatchAction :=
  let entry := buildRouteEntry reg 0 proto
  fun _ => { route := entry }

/-- One matcher of a descriptor matcher list: a predicate and its on-match
route action. -/
structure ProtoMatcher where
  predicate : ProtoPredicate
  action : ProtoRouteAction

/-- One built matcher: a resolved predicate and the RouteEntry built from
its action. -/
structure Matcher where
  predicate : Predicate
  action : RouteEntry

/-- Modelled from the spec: a VirtualHost descriptor: name, host domain
patterns, and the matcher list of its match tree. -/
structure ProtoVirtualHost where
  name : String
  hosts : List String
  routes : List ProtoMatcher

/-- A built VirtualHost: domains plus built matchers. -/
structure VirtualHost where
  name : String
  hosts : List String
  routes : List Matcher

/-- Modelled from the spec: a RouteConfiguration descriptor: name, ordered
virtual hosts, optional top-level fallback matcher list. -/
structure ProtoRouteConfiguration where
  name : String
  virtual_hosts : List ProtoVirtualHost
  routes : Option (List ProtoMatcher)

/-- A built, immutable RouteConfiguration. -/
structure RouteConfiguration where
  name : String
  virtual_hosts : List VirtualHost
  fallback : Option (List Matcher)

/-- Default (empty) route configuration, used only to give the type an
Inhabited instance. -/
instance : Inhabited RouteConfiguration := ⟨{ name := "", virtual_hosts := [], fallback := none }⟩

/-- Modelled from the spec: classification of a host domain pattern:
exact string, prefix wildcard "x*", suffix wildcard "*x", or the
catch-all "*". -/
inductive DomainPattern where
  | exactDomain (s : String)
  | prefixWildcard (p : String)
  | suffixWildcard (s : String)
  | catchAll
deriving DecidableEq, Repr

/-- Parse one configured domain string into its pattern class. -/
def domainPattern (d : String) : DomainPattern :=
  if d = "*" then .catchAll
  else if strEndsWith d "*" then .prefixWildcard (strDropLast d)
  else if strStartsWith d "*" then .suffixWildcard (strDropFirst d)
  else .exactDomain d

/-- Does a configured domain match the host exactly? -/
def domainMatchesExact (d host : String) : Bool :=
  match domainPattern d with
  | .exactDomain s => s == host
  | _ => false

/-- First virtual host carrying an exact domain equal to the host. -/
def findExactVHost (vhs : List VirtualHost) (host : String) : Option VirtualHost :=
  vhs.find? (fun vh => vh.hosts.any (fun d => domainMatchesExact d host))

/-- All (stripped pattern, virtual host) pairs whose prefix-wildcard domain
matches the host. -/
def prefixCandidates (vhs : List VirtualHost) (host : String) :
    List (String × VirtualHost) :=
  vhs.flatMap (fun vh => vh.hosts.filterMap (fun d =>
    match domainPattern d with
    | .prefixWildcard p => if strStartsWith host p then some (p, vh) else none
    | _ => none))

/-- All (stripped pattern, virtual host) pairs whose suffix-wildcard domain
matches the host. -/
def suffixCandidates (vhs : List VirtualHost) (host : String) :
    List (String × VirtualHost) :=
  vhs.flatMap (fun vh => vh.hosts.filterMap (fun d =>
    match domainPattern d with
    | .suffixWildcard s => if strEndsWith host s then some (s, vh) else none
    | _ => none))

/-- Pick a candidate whose stripped pattern has maximal length (the
longest match); earlier candidates win ties, which are structurally
impossible for well-formed configurations. -/
def pickLongest : List (String × VirtualHost) → Option (String × VirtualHost)
  | [] => none
  | c :: rest =>
    match pickLongest rest with
    | none => some c
    | some best => if best.1.data.length > c.1.data.length then some best else some c

/-- First virtual host listing the catch-all domain. -/
def findCatchAllVHost (vhs : List VirtualHost) : Option VirtualHost :=
  vhs.find? (fun vh => vh.hosts.any (fun d => domainPattern d == .catchAll))

/-- Modelled from the spec: findVirtualHost(host), with precedence exact
domain match, else longest-matching prefix-wildcard domain, else
longest-matching suffix-wildcard domain, else the catch-all if present,
else none. -/
def findVirtualHost (vhs : List VirtualHost) (host : String) : Option VirtualHost :=
  match findExactVHost vhs host with
  | some vh => some vh
  | none =>
    match pickLongest (prefixCandidates vhs host) with
    | some c => some c.2
    | none =>
      match pickLongest (suffixCandidates vhs host) with
      | some c => some c.2
      | none => findCatchAllVHost vhs

/-- Modelled from the spec: the first matcher (in declaration order) whose
predicate evaluates true determines the result; no match yields none. -/
def evalMatchers (ms : List Matcher) (r : Request) : Option RouteEntry :=
  match ms.find? (fun m => evalPredicate r m.predicate) with
  | some m => some m.action
  | none => none

/-- Modelled from the spec: routeEntry(request): resolve the virtual host
from the request host and evaluate its match tree; with no matching
virtual host, evaluate the top-level fallback matcher list if present;
otherwise none. -/
def routeEntry (cfg : RouteConfiguration) (r : Request) : Option RouteEntry :=
  match findVirtualHost cfg.virtual_hosts r.host with
  | some vh => evalMatchers vh.routes r
  | none =>
    match cfg.fallback with
    | some ms => evalMatchers ms r
    | none => none

/-- Every RouteEntry reachable from a built configuration: the actions of
all virtual-host matchers and of the fallback matchers. -/
def configEntries (cfg : RouteConfiguration) : List RouteEntry :=
  cfg.virtual_hosts.flatMap (fun vh => vh.routes.map Matcher.action)
    ++ (cfg.fallback.getD []).map Matcher.action

/-- Modelled from the spec: the fatal build-time configuration errors, each
naming the offending value and/or the configuration. -/
inductive BuildError where
  | duplicateHost (domain : String) (configName : String)
  | multipleWildcard (configName : String)
  | emptyHost (configName : String)
  | conflictingCatchAll (configName : String)
  | unknownInput (inputName : String)
  | disallowedInput (inputName : String)
deriving DecidableEq, Repr

/-- The error messages, as asserted by the unit tests of the builder. -/
def BuildError.message : BuildError → String
  | .duplicateHost d n =>
    "Only unique values for host are permitted. Duplicate entry of domain "
      ++ d ++ " in route " ++ n
  | .multipleWildcard n =>
    "Only a single wildcard domain is permitted in route " ++ n
  | .emptyHost n => "Invalid empty host name in route " ++ n
  | .conflictingCatchAll n =>
    "\x27routes\x27 cannot be specified at the same time as a catch-all (\x27*\x27) virtual host in route " ++ n
  | .unknownInput n => "Unknown data input: " ++ n
  | .disallowedInput n => "Data input disallowed in this context: " ++ n

/-- All host domain strings of a descriptor, in declaration order across
the virtual hosts. -/
def allDomains (vhs : List ProtoVirtualHost) : List String :=
  vhs.flatMap ProtoVirtualHost.hosts

/-- Modelled from the spec: domain-shape validation. Walking the domains in
declaration order, an empty domain is an EmptyHostError, a second
catch-all domain anywhere is a MultipleWildcardError, and a repeated
non-wildcard domain is a DuplicateHostError naming the domain; on
success the returned flag records whether a catch-all domain was seen. -/
def checkDomains (configName : String) :
    List String → List String → Bool → Except BuildError Bool
  | [], _, sawCatchAll => .ok sawCatchAll
  | d :: rest, seen, sawCatchAll =>
    if d = "" then .error (.emptyHost configName)
    else if d = "*" then
      if sawCatchAll then .error (.multipleWildcard configName)
      else checkDomains configName rest seen true
    else if seen.contains d then .error (.duplicateHost d configName)
    else checkDomains configName rest (d :: seen) sawCatchAll

mutual

/-- Modelled from the spec: building one predicate node: resolve every
DataInput reference against the registry (an unknown name is a fatal
UnknownInputError) and run the validation visitor on every Single node
(a rejection is a fatal DisallowedInputError). -/
def buildPredicate : ProtoPredicate → Except BuildError Predicate
  | .andMatcher cs => Except.map Predicate.andP (buildPredicateList cs)
  | .orMatcher cs => Except.map Predicate.orP (buildPredicateList cs)
  | .singlePredicate ref v =>
    match resolveDataInput ref with
    | none => .error (.unknownInput ref.name)
    | some input =>
      match performDataInputValidation { name := ref.name } "" with
      | .okStatus => .ok (.singleP input v)
      | .rejected _ => .error (.disallowedInput ref.name)

/-- Build every predicate of a child list, failing on the first error. -/
def buildPredicateList : List ProtoPredicate → Except BuildError (List Predicate)
  | [] => .ok []
  | c :: rest => do
    let p ← buildPredicate c
    let ps ← buildPredicateList rest
    .ok (p :: ps)

end

/-- Build a matcher list, assigning the next fresh identities to the
RouteEntry instances built from the actions. -/
def buildMatchers (reg : FilterFactoryRegistry) (nextId : Nat) :
    List ProtoMatcher → Except BuildError (List Matcher × Nat)
  | [] => .ok ([], nextId)
  | m :: rest => do
    let p ← buildPredicate m.predicate
    let (ms, nid) ← buildMatchers reg (nextId + 1) rest
    .ok ({ predicate := p, action := buildRouteEntry reg nextId m.action } :: ms, nid)

/-- Build the virtual hosts in order, threading the identity counter. -/
def buildVirtualHosts (reg : FilterFactoryRegistry) (nextId : Nat) :
    List ProtoVirtualHost → Except BuildError (List VirtualHost × Nat)
  | [] => .ok ([], nextId)
  | vh :: rest => do
    let (ms, nid) ← buildMatchers reg nextId vh.routes
    let (vhs, nid2) ← buildVirtualHosts reg nid rest
    .ok ({ name := vh.name, hosts := vh.hosts, routes := ms } :: vhs, nid2)

/-- Modelled from the spec: the one-time, fail-fast configuration builder:
validate domain uniqueness and wildcard rules, reject a top-level
fallback matcher list configured together with a catch-all virtual
host, then resolve every DataInput and per-filter configuration and
freeze the structure. Any failure yields an error and no routing
structure. -/
def buildRouteConfiguration (reg : FilterFactoryRegistry)
    (cfg : ProtoRouteConfiguration) : Except BuildError RouteConfiguration := do
  let sawCatchAll ← checkDomains cfg.name (allDomains cfg.virtual_hosts) [] false
  if cfg.routes.isSome && sawCatchAll then
    .error (.conflictingCatchAll cfg.name)
  else do
    let (vhs, nid) ← buildVirtualHosts reg 0 cfg.virtual_hosts
    match cfg.routes with
    | none => .ok { name := cfg.name, virtual_hosts := vhs, fallback := none }
    | some ms => do
      let (fms, _) ← buildMatchers reg nid ms
      .ok { name := cfg.name, virtual_hosts := vhs, fallback := some fms }

/-- Reference to the built-in host DataInput, as written in the test
configuration. -/
def hostRef : DataInputRef :=
  { name := "envoy.matching.generic_proxy.input.host", propertyKey := "" }

/-- Reference to the built-in method DataInput. -/
def methodRef : DataInputRef :=
  { name := "envoy.matching.generic_proxy.input.method", propertyKey := "" }

/-- Reference to the built-in property DataInput for a key. -/
def propertyRef (key : String) : DataInputRef :=
  { name := "envoy.matching.generic_proxy.input.property", propertyKey := key }

/-- The predicate shape shared by the first three virtual hosts of the
test configuration RouteConfigurationYaml: host equals the given value
AND method equals method_0 AND (key_0 equals value_0 OR key_1 equals
value_1). -/
def testTreePredicate (hostValue : String) : ProtoPredicate :=
  .andMatcher
    [ .singlePredicate hostRef hostValue,
      .singlePredicate methodRef "method_0",
      .orMatcher
        [ .singlePredicate (propertyRef "key_0") "value_0",
          .singlePredicate (propertyRef "key_1") "value_1" ] ]

/-- A RouteAction descriptor of the test configuration: a cluster plus one
mock_filter metadata entry, no per-filter configuration blobs. -/
def testAction (cluster mkey mval : String) : ProtoRouteAction :=
  { cluster := cluster
    metadata := [("mock_filter", [(mkey, mval)])]
    per_filter_config := [] }

/-- The descriptor RouteConfigurationYaml of the route matcher tests:
virtual hosts service (exact domain service_0), prefix (domain
prefix*), suffix (domain *suffix) and catch_all (domain *). -/
def testProtoConfig : ProtoRouteConfiguration :=
  { name := "test_matcher_tree"
    virtual_hosts :=
      [ { name := "service"
          hosts := ["service_0"]
          routes := [ { predicate := testTreePredicate "service_0"
                        action := testAction "cluster_0" "match_service" "match_service" } ] },
        { name := "prefix"
          hosts := ["prefix*"]
          routes := [ { predicate := testTreePredicate "prefix_service_0"
                        action := testAction "cluster_1" "match_prefix" "match_prefix" } ] },
        { name := "suffix"
          hosts := ["*suffix"]
          routes := [ { predicate := testTreePredicate "service_0_suffix"
                        action := testAction "cluster_2" "match_suffix" "match_suffix" } ] },
        { name := "catch_all"
          hosts := ["*"]
          routes := [ { predicate := .singlePredicate (propertyRef "catch_all") "catch_all"
                        action := testAction "cluster_3" "catch_all" "catch_all" } ] } ]
    routes := none }

/-- The successfully built configuration of RouteConfigurationYaml. -/
def testConfig : RouteConfiguration :=
  ((buildRouteConfiguration emptyFilterRegistry testProtoConfig).toOption).getD default

/-- The descriptor RouteConfigurationYamlWithoutDefaultHost: one virtual
host with exact domain service_0 and no catch-all anywhere. -/
def noDefaultHostProtoConfig : ProtoRouteConfiguration :=
  { name := "test_matcher_tree"
    virtual_hosts :=
      [ { name := ""
          hosts := ["service_0"]
          routes := [ { predicate := .singlePredicate hostRef "service_0"
                        action := testAction "cluster_0" "key_0" "value_0" } ] } ]
    routes := none }

/-- The built configuration of RouteConfigurationYamlWithoutDefaultHost. -/
def noDefaultHostConfig : RouteConfiguration :=
  ((buildRouteConfiguration emptyFilterRegistry noDefaultHostProtoConfig).toOption).getD default

/-- The descriptor RouteConfigurationYamlWithUnknownInput: its single
predicate references an unregistered DataInput name. -/
def unknownInputProtoConfig : ProtoRouteConfiguration :=
  { name := "test_matcher_tree"
    virtual_hosts :=
      [ { name := ""
          hosts := ["*"]
          routes :=
            [ { predicate := .singlePredicate
                  { name := "envoy.matching.generic_proxy.input.unknown_input", propertyKey := "" }
                  "service_0"
                action := testAction "cluster_0" "key_0" "value_0" } ] } ]
    routes := none }

/-- The descriptor RouteConfigurationYamlWithRepeatedHost: the domain
service_0 is listed twice. -/
def repeatedHostProtoConfig : ProtoRouteConfiguration :=
  { name := "test_matcher_tree"
    virtual_hosts :=
      [ { name := ""
          hosts := ["service_0", "service_0"]
          routes := [ { predicate := .singlePredicate hostRef "service_0"
                        action := testAction "cluster_0" "key_0" "value_0" } ] } ]
    routes := none }

/-- The virtual host of RouteConfigurationYamlWithMultipleWildcard, listing
the catch-all domain twice. -/
def multipleWildcardVHost : ProtoVirtualHost :=
  { name := ""
    hosts := ["*", "*"]
    routes := [ { predicate := .singlePredicate hostRef "service_0"
                  action := testAction "cluster_0" "key_0" "value_0" } ] }

/-- The descriptor RouteConfigurationYamlWithMultipleWildcard: one virtual
host lists the catch-all domain twice. -/
def multipleWildcardProtoConfig : ProtoRouteConfiguration :=
  { name := "test_matcher_tree"
    virtual_hosts := [multipleWildcardVHost]
    routes := none }

/-- The descriptor RouteConfigurationYamlWithMultipleWildcard2: a top-level
fallback matcher list together with a catch-all virtual host. -/
def conflictingCatchAllProtoConfig : ProtoRouteConfiguration :=
  { name := "test_matcher_tree"
    virtual_hosts :=
      [ { name := ""
          hosts := ["*"]
          routes := [ { predicate := .singlePredicate hostRef "service_0"
                        action := testAction "cluster_0" "key_0" "value_0" } ] } ]
    routes := some [ { predicate := .singlePredicate hostRef "service_0"
                       action := testAction "cluster_0" "key_0" "value_0" } ] }

/-- The descriptor RouteConfigurationYamlWithEmptyHost: one empty host
domain. -/
def emptyHostProtoConfig : ProtoRouteConfiguration :=
  { name := "test_matcher_tree"
    virtual_hosts :=
      [ { name := ""
          hosts := [""]
          routes := [ { predicate := .singlePredicate hostRef "service_0"
                        action := testAction "cluster_0" "key_0" "value_0" } ] } ]
    routes := none }

/-- A fake request of the tests: host, method, and property bindings. -/
def fakeRequest (host method : String) (props : List (String × String)) : Request :=
  { host := host, method := method, data := props }

mutual

/-- All DataInput references occurring in a descriptor predicate tree. -/
def predicateRefs : ProtoPredicate → List DataInputRef
  | .andMatcher cs => predicateListRefs cs
  | .orMatcher cs => predicateListRefs cs
  | .singlePredicate ref _ => [ref]

/-- All DataInput references of a child list. -/
def predicateListRefs : List ProtoPredicate → List DataInputRef
  | [] => []
  | c :: rest => predicateRefs c ++ predicateListRefs rest

end

/-- All DataInput references of a matcher list. -/
def matchersRefs (ms : List ProtoMatcher) : List DataInputRef :=
  ms.flatMap (fun m => predicateRefs m.predicate)

/-- All DataInput references occurring anywhere in a configuration
descriptor: in the virtual-host trees and in the fallback tree. -/
def configRefs (cfg : ProtoRouteConfiguration) : List DataInputRef :=
  cfg.virtual_hosts.flatMap (fun vh => matchersRefs vh.routes)
    ++ matchersRefs (cfg.routes.getD [])

/-- The built predicate of the service virtual host of the test
configuration. -/
def testPredicateService : Predicate :=
  .andP
    [ .singleP .hostInput "service_0",
      .singleP .methodInput "method_0",
      .orP
        [ .singleP (.propertyInput "key_0") "value_0",
          .singleP (.propertyInput "key_1") "value_1" ] ]

/-- The RouteEntry built (with identity 0) for the service virtual host of
the test configuration. -/
def testEntryService : RouteEntry :=
  { identity := 0
    clusterName := "cluster_0"
    metadata := [("mock_filter", [("match_service", "match_service")])]
    perFilterConfigs := [] }

/-- The RouteEntry built (with identity 1) for the prefix virtual host of
the test configuration. -/
def testEntryPrefix : RouteEntry :=
  { identity := 1
    clusterName := "cluster_1"
    metadata := [("mock_filter", [("match_prefix", "match_prefix")])]
    perFilterConfigs := [] }

/-- The RouteEntry built (with identity 2) for the suffix virtual host of
the test configuration. -/
def testEntrySuffix : RouteEntry :=
  { identity := 2
    clusterName := "cluster_2"
    metadata := [("mock_filter", [("match_suffix", "match_suffix")])]
    perFilterConfigs := [] }

/-- The RouteEntry built (with identity 3) for the catch-all virtual host
of the test configuration. -/
def testEntryCatchAll : RouteEntry :=
  { identity := 3
    clusterName := "cluster_3"
    metadata := [("mock_filter", [("catch_all", "catch_all")])]
    perFilterConfigs := [] }

/-- The filter name used by the per-filter-config tests. -/
def mockFilterName : String := "envoy.filters.generic.mock_filter"

/-- The PerFilterConfig object produced by the mock filter factory. -/
def mockFilterConfig : PerFilterConfig := { token := 7 }

/-- Mock factory that supplies an empty route-config proto and produces an
object from any blob (the RoutePerFilterConfig test scenario). -/
def mockFilterFactory : FilterConfigFactory :=
  { hasRouteConfigProto := true
    createRouteSpecificFilterConfig := fun _ => some mockFilterConfig }

/-- Mock factory that supplies no empty route-config proto (the
NullRouteEmptyProto test scenario). -/
def mockNoProtoFactory : FilterConfigFactory :=
  { hasRouteConfigProto := false
    createRouteSpecificFilterConfig := fun _ => some mockFilterConfig }

/-- Mock factory that produces no object from any blob (the
NullRouteSpecificConfig test scenario). -/
def mockNullConfigFactory : FilterConfigFactory :=
  { hasRouteConfigProto := true
    createRouteSpecificFilterConfig := fun _ => none }

/-- Registry with the producing mock factory registered. -/
def mockRegistry : FilterFactoryRegistry :=
  fun n => if n = mockFilterName then some mockFilterFactory else none

/-- Registry with the proto-less mock factory registered. -/
def mockNoProtoRegistry : FilterFactoryRegistry :=
  fun n => if n = mockFilterName then some mockNoProtoFactory else none

/-- Registry with the object-less mock factory registered. -/
def mockNullConfigRegistry : FilterFactoryRegistry :=
  fun n => if n = mockFilterName then some mockNullConfigFactory else none

/-- The RouteAction descriptor of the per-filter-config tests: one
configuration blob for the mock filter. -/
def perFilterProtoAction : ProtoRouteAction :=
  { cluster := "cluster_0"
    metadata := []
    per_filter_config := [(mockFilterName, "key_0: value_0")] }

/-- Absence lemma for perFilterConfig: a filter name with no configuration
blob is absent from the construction-time map. -/
theorem buildPerFilterConfigs_no_blob (reg : FilterFactoryRegistry) (n : String) :
    ∀ blobs : List (String × String), (∀ p ∈ blobs, p.1 ≠ n) →
      (buildPerFilterConfigs reg blobs).find? (fun p => p.1 == n) = none := by
  intro blobs
  induction blobs with
  | nil => intro _; rfl
  | cons b rest ih =>
    intro hall
    have hb : b.1 ≠ n := hall b (List.mem_cons_self b rest)
    have hrest : ∀ p ∈ rest, p.1 ≠ n := fun p hp => hall p (List.mem_cons_of_mem b hp)
    obtain ⟨m, blob⟩ := b
    simp only [buildPerFilterConfigs]
    cases hreg : reg m with
    | none => dsimp only; exact ih hrest
    | some f =>
      dsimp only
      cases hmk : makeFilterConfig f blob with
      | none => dsimp only; exact ih hrest
      | some c =>
        dsimp only
        simp only [List.find?]
        have : (m == n) = false := beq_eq_false_iff_ne.mpr hb
        rw [this]
        exact ih hrest

/-- Absence lemma for perFilterConfig: a filter name with no registered
factory is absent from the construction-time map. -/
theorem buildPerFilterConfigs_no_factory (reg : FilterFactoryRegistry) (n : String)
    (hreg : reg n = none) :
    ∀ blobs : List (String × String),
      (buildPerFilterConfigs reg blobs).find? (fun p => p.1 == n) = none := by
  intro blobs
  induction blobs with
  | nil => rfl
  | cons b rest ih =>
    obtain ⟨m, blob⟩ := b
    simp only [buildPerFilterConfigs]
    cases hm : reg m with
    | none => dsimp only; exact ih
    | some f =>
      dsimp only
      cases hmk : makeFilterConfig f blob with
      | none => dsimp only; exact ih
      | some c =>
        dsimp only
        simp only [List.find?]
        have hne : (m == n) = false := by
          refine beq_eq_false_iff_ne.mpr ?_
          intro he
          rw [he, hreg] at hm
          exact Option.noConfusion hm
        rw [hne]
        exact ih

/-- Absence lemma for perFilterConfig: when the registered factory
produces no object from any of the blobs supplied for the filter name,
the name is absent from the construction-time map. -/
theorem buildPerFilterConfigs_no_object (reg : FilterFactoryRegistry) (n : String)
    (f : FilterConfigFactory) (hreg : reg n = some f) :
    ∀ blobs : List (String × String),
      (∀ blob, (n, blob) ∈ blobs → makeFilterConfig f blob = none) →
      (buildPerFilterConfigs reg blobs).find? (fun p => p.1 == n) = none := by
  intro blobs
  induction blobs with
  | nil => intro _; rfl
  | cons b rest ih =>
    intro hall
    have hrest : ∀ blob, (n, blob) ∈ rest → makeFilterConfig f blob = none :=
      fun blob hb => hall blob (List.mem_cons_of_mem b hb)
    obtain ⟨m, blob⟩ := b
    simp only [buildPerFilterConfigs]
    by_cases hmn : m = n
    · subst hmn
      rw [hreg]
      dsimp only
      rw [hall blob (List.mem_cons_self _ _)]
      exact ih hrest
    · cases hm : reg m with
      | none => dsimp only; exact ih hrest
      | some g =>
        dsimp only
        cases hmk : makeFilterConfig g blob with
        | none => dsimp only; exact ih hrest
        | some c =>
          dsimp only
          simp only [List.find?]
          rw [beq_eq_false_iff_ne.mpr hmn]
          exact ih hrest

/-- Presence lemma for perFilterConfig: the first blob supplied for a
filter name determines the object stored in the construction-time map,
when the registered factory produces one from it. -/
theorem buildPerFilterConfigs_found (reg : FilterFactoryRegistry) (n : String)
    (f : FilterConfigFactory) (blob : String) (c : PerFilterConfig)
    (hreg : reg n = some f) (hmk : makeFilterConfig f blob = some c) :
    ∀ pre post : List (String × String), (∀ p ∈ pre, p.1 ≠ n) →
      (buildPerFilterConfigs reg (pre ++ (n, blob) :: post)).find? (fun p => p.1 == n)
        = some (n, c) := by
  intro pre
  induction pre with
  | nil =>
    intro post _
    simp only [List.nil_append, buildPerFilterConfigs, hreg, hmk, List.find?, beq_self_eq_true]
  | cons b rest ih =>
    intro post hall
    have hb : b.1 ≠ n := hall b (List.mem_cons_self b rest)
    have hrest : ∀ p ∈ rest, p.1 ≠ n := fun p hp => hall p (List.mem_cons_of_mem b hp)
    obtain ⟨m, mblob⟩ := b
    simp only [List.cons_append, buildPerFilterConfigs]
    cases hm : reg m with
    | none => dsimp only; exact ih post hrest
    | some g =>
      dsimp only
      cases hmkg : makeFilterConfig g mblob with
      | none => dsimp only; exact ih post hrest
      | some d =>
        dsimp only
        simp only [List.find?]
        rw [beq_eq_false_iff_ne.mpr hb]
        exact ih post hrest

/-- pickLongest returns none exactly on the empty candidate list. -/
theorem pickLongest_eq_none {l : List (String × VirtualHost)} :
    pickLongest l = none ↔ l = [] := by
  induction l with
  | nil => simp [pickLongest]
  | cons c rest ih =>
    simp only [pickLongest]
    cases hr : pickLongest rest with
    | none => simp
    | some best =>
      dsimp only
      constructor
      · intro h
        split at h <;> exact Option.noConfusion h
      · intro h
        exact List.noConfusion h

/-- Whatever pickLongest returns is a candidate of maximal pattern
length. -/
theorem pickLongest_mem {l : List (String × VirtualHost)} {c : String × VirtualHost}
    (h : pickLongest l = some c) :
    c ∈ l ∧ ∀ d ∈ l, d.1.data.length ≤ c.1.data.length := by
  induction l generalizing c with
  | nil => exact Option.noConfusion h
  | cons a rest ih =>
    simp only [pickLongest] at h
    cases hr : pickLongest rest with
    | none =>
      rw [hr] at h
      dsimp only at h
      cases h
      have hrest : rest = [] := pickLongest_eq_none.mp hr
      subst hrest
      refine ⟨List.mem_cons_self _ _, ?_⟩
      intro d hd
      rcases List.mem_cons.mp hd with h1 | h1
      · subst h1; exact Nat.le_refl _
      · exact absurd h1 (List.not_mem_nil d)
    | some best =>
      rw [hr] at h
      dsimp only at h
      obtain ⟨hbmem, hbmax⟩ := ih hr
      by_cases hlt : best.1.data.length > a.1.data.length
      · rw [if_pos hlt] at h
        cases h
        refine ⟨List.mem_cons_of_mem _ hbmem, ?_⟩
        intro d hd
        rcases List.mem_cons.mp hd with h1 | h1
        · subst h1; exact Nat.le_of_lt hlt
        · exact hbmax d h1
      · rw [if_neg hlt] at h
        cases h
        refine ⟨List.mem_cons_self _ _, ?_⟩
        intro d hd
        rcases List.mem_cons.mp hd with h1 | h1
        · subst h1; exact Nat.le_refl _
        · exact Nat.le_trans (hbmax d h1) (Nat.le_of_not_lt hlt)

/-- Soundness of the domain-shape validation: on success the domain list
has no duplicates, no empty domain, every non-wildcard domain avoids
the seen set, a set flag certifies the absence of further catch-alls,
and the returned flag records exactly whether a catch-all occurs. -/
theorem checkDomains_ok (n : String) :
    ∀ (ds seen : List String) (w w2 : Bool), checkDomains n ds seen w = .ok w2 →
      ds.Nodup ∧ (∀ d ∈ ds, d ≠ "" ∧ (d ≠ "*" → d ∉ seen))
        ∧ (w = true → "*" ∉ ds) ∧ w2 = (w || ds.contains "*") := by
  intro ds
  induction ds with
  | nil =>
    intro seen w w2 h
    cases h
    simp
  | cons d rest ih =>
    intro seen w w2 h
    simp only [checkDomains] at h
    by_cases h1 : d = ""
    · rw [if_pos h1] at h; exact Except.noConfusion h
    · rw [if_neg h1] at h
      by_cases h2 : d = "*"
      · rw [if_pos h2] at h
        cases w with
        | true => rw [if_pos rfl] at h; exact Except.noConfusion h
        | false =>
          rw [if_neg (by simp)] at h
          obtain ⟨hnd, hprops, hstar, hflag⟩ := ih seen true w2 h
          subst h2
          refine ⟨List.nodup_cons.mpr ⟨hstar rfl, hnd⟩, ?_, ?_, ?_⟩
          · intro e he
            rcases List.mem_cons.mp he with he1 | he1
            · subst he1; exact ⟨h1, fun hne => absurd rfl hne⟩
            · exact ⟨(hprops e he1).1, (hprops e he1).2⟩
          · intro hw; exact Bool.noConfusion hw
          · simp only [List.contains_cons, beq_self_eq_true, Bool.true_or, Bool.or_true]
            simpa using hflag
      · rw [if_neg h2] at h
        cases h3 : seen.contains d with
        | true => rw [h3] at h; rw [if_pos rfl] at h; exact Except.noConfusion h
        | false =>
          rw [h3] at h
          rw [if_neg (by simp)] at h
          obtain ⟨hnd, hprops, hstar, hflag⟩ := ih (d :: seen) w w2 h
          have hdseen : d ∉ seen := by
            intro hmem
            have : seen.contains d = true := List.elem_eq_true_of_mem hmem
            rw [this] at h3
            exact Bool.noConfusion h3
          refine ⟨?_, ?_, ?_, ?_⟩
          · refine List.nodup_cons.mpr ⟨?_, hnd⟩
            intro hmem
            exact (hprops d hmem).2 h2 (List.mem_cons_self _ _)
          · intro e he
            rcases List.mem_cons.mp he with he1 | he1
            · subst he1; exact ⟨h1, fun _ => hdseen⟩
            · exact ⟨(hprops e he1).1,
                fun hne => fun hmem => (hprops e he1).2 hne (List.mem_cons_of_mem _ hmem)⟩
          · intro hw
            intro hmem
            rcases List.mem_cons.mp hmem with he1 | he1
            · exact h2 he1.symm
            · exact hstar hw he1
          · rw [hflag]
            simp only [List.contains_cons]
            rw [show ("*" == d) = false from beq_eq_false_iff_ne.mpr (fun he => h2 he.symm)]
            simp

/-- Every prefix candidate pairs a pattern with one of the virtual hosts. -/
theorem prefixCandidates_mem {vhs : List VirtualHost} {host : String}
    {c : String × VirtualHost} (h : c ∈ prefixCandidates vhs host) : c.2 ∈ vhs := by
  simp only [prefixCandidates, List.mem_flatMap] at h
  obtain ⟨vh, hvh, hc⟩ := h
  simp only [List.mem_filterMap] at hc
  obtain ⟨d, _, hd⟩ := hc
  cases hdp : domainPattern d <;> rw [hdp] at hd <;> dsimp only at hd
  case prefixWildcard p =>
    by_cases hpre : strStartsWith host p = true
    · rw [if_pos hpre] at hd
      cases hd
      exact hvh
    · rw [if_neg hpre] at hd
      exact Option.noConfusion hd
  all_goals exact Option.noConfusion hd

/-- Every suffix candidate pairs a pattern with one of the virtual hosts. -/
theorem suffixCandidates_mem {vhs : List VirtualHost} {host : String}
    {c : String × VirtualHost} (h : c ∈ suffixCandidates vhs host) : c.2 ∈ vhs := by
  simp only [suffixCandidates, List.mem_flatMap] at h
  obtain ⟨vh, hvh, hc⟩ := h
  simp only [List.mem_filterMap] at hc
  obtain ⟨d, _, hd⟩ := hc
  cases hdp : domainPattern d <;> rw [hdp] at hd <;> dsimp only at hd
  case suffixWildcard s =>
    by_cases hsuf : strEndsWith host s = true
    · rw [if_pos hsuf] at hd
      cases hd
      exact hvh
    · rw [if_neg hsuf] at hd
      exact Option.noConfusion hd
  all_goals exact Option.noConfusion hd

/-- findVirtualHost only returns one of the configured virtual hosts. -/
theorem findVirtualHost_mem {vhs : List VirtualHost} {host : String} {vh : VirtualHost}
    (h : findVirtualHost vhs host = some vh) : vh ∈ vhs := by
  unfold findVirtualHost at h
  cases he : findExactVHost vhs host with
  | some v =>
    rw [he] at h
    cases h
    exact List.mem_of_find?_eq_some he
  | none =>
    rw [he] at h
    dsimp only at h
    cases hp : pickLongest (prefixCandidates vhs host) with
    | some c =>
      rw [hp] at h
      cases h
      exact prefixCandidates_mem (pickLongest_mem hp).1
    | none =>
      rw [hp] at h
      dsimp only at h
      cases hs : pickLongest (suffixCandidates vhs host) with
      | some c =>
        rw [hs] at h
        cases h
        exact suffixCandidates_mem (pickLongest_mem hs).1
      | none =>
        rw [hs] at h
        dsimp only at h
        exact List.mem_of_find?_eq_some h

/-- evalMatchers only returns the action of one of its matchers. -/
theorem evalMatchers_mem {ms : List Matcher} {r : Request} {e : RouteEntry}
    (h : evalMatchers ms r = some e) : e ∈ ms.map Matcher.action := by
  unfold evalMatchers at h
  cases hf : ms.find? (fun m => evalPredicate r m.predicate) with
  | none => rw [hf] at h; exact Option.noConfusion h
  | some m =>
    rw [hf] at h
    cases h
    exact List.mem_map_of_mem _ (List.mem_of_find?_eq_some hf)

/-- routeEntry only returns RouteEntry instances built into the
configuration: the actions of the virtual-host matchers or of the
fallback matchers. -/
theorem routeEntry_mem {cfg : RouteConfiguration} {r : Request} {e : RouteEntry}
    (h : routeEntry cfg r = some e) : e ∈ configEntries cfg := by
  unfold routeEntry at h
  cases hv : findVirtualHost cfg.virtual_hosts r.host with
  | some vh =>
    rw [hv] at h
    exact List.mem_append_left _
      (List.mem_flatMap.mpr ⟨vh, findVirtualHost_mem hv, evalMatchers_mem h⟩)
  | none =>
    rw [hv] at h
    dsimp only at h
    cases hf : cfg.fallback with
    | none => rw [hf] at h; exact Option.noConfusion h
    | some ms =>
      rw [hf] at h
      refine List.mem_append_right _ ?_
      have hm := evalMatchers_mem h
      rw [hf]
      simpa using hm

/-- A successful build implies the domain-shape validation succeeded and
the fallback/catch-all conflict test passed. -/
theorem build_ok_domains {reg : FilterFactoryRegistry} {cfg : ProtoRouteConfiguration}
    {built : RouteConfiguration} (h : buildRouteConfiguration reg cfg = .ok built) :
    ∃ w, checkDomains cfg.name (allDomains cfg.virtual_hosts) [] false = .ok w
      ∧ (cfg.routes.isSome && w) = false := by
  unfold buildRouteConfiguration at h
  cases hcd : checkDomains cfg.name (allDomains cfg.virtual_hosts) [] false with
  | error e =>
    rw [hcd] at h
    exact absurd h (by simp [Bind.bind, Except.bind])
  | ok w =>
    rw [hcd] at h
    refine ⟨w, rfl, ?_⟩
    simp only [Bind.bind, Except.bind] at h
    by_cases hif : (cfg.routes.isSome && w) = true
    · rw [if_pos hif] at h
      exact Except.noConfusion h
    · simpa using hif

/-- A successful build implies the virtual hosts and the fallback matcher
list were themselves built successfully. -/
theorem build_ok_parts {reg : FilterFactoryRegistry} {cfg : ProtoRouteConfiguration}
    {built : RouteConfiguration} (h : buildRouteConfiguration reg cfg = .ok built) :
    ∃ p, buildVirtualHosts reg 0 cfg.virtual_hosts = .ok p
      ∧ ∀ ms, cfg.routes = some ms → ∃ q, buildMatchers reg p.2 ms = .ok q := by
  unfold buildRouteConfiguration at h
  cases hcd : checkDomains cfg.name (allDomains cfg.virtual_hosts) [] false with
  | error e =>
    rw [hcd] at h
    exact absurd h (by simp [Bind.bind, Except.bind])
  | ok w =>
    rw [hcd] at h
    simp only [Bind.bind, Except.bind] at h
    by_cases hif : (cfg.routes.isSome && w) = true
    · rw [if_pos hif] at h
      exact Except.noConfusion h
    · rw [if_neg hif] at h
      cases hvh : buildVirtualHosts reg 0 cfg.virtual_hosts with
      | error e =>
        rw [hvh] at h
        exact Except.noConfusion h
      | ok p =>
        rw [hvh] at h
        obtain ⟨vhs, nid⟩ := p
        dsimp only at h
        refine ⟨(vhs, nid), rfl, ?_⟩
        intro ms hms
        rw [hms] at h
        dsimp only at h
        cases hfm : buildMatchers reg nid ms with
        | error e =>
          rw [hfm] at h
          exact Except.noConfusion h
        | ok q => exact ⟨q, rfl⟩

mutual

/-- A successfully built predicate resolved every DataInput reference. -/
theorem buildPredicate_ok_refs : ∀ (p : ProtoPredicate) (q : Predicate),
    buildPredicate p = Except.ok q →
    ∀ ref, ref ∈ predicateRefs p → (resolveDataInput ref).isSome = true
  | ProtoPredicate.andMatcher cs, q, h, ref, hmem => by
    have h2 : Except.map Predicate.andP (buildPredicateList cs) = Except.ok q := h
    cases hcs : buildPredicateList cs with
    | error e => rw [hcs] at h2; exact Except.noConfusion h2
    | ok qs => exact buildPredicateList_ok_refs cs qs hcs ref hmem
  | ProtoPredicate.orMatcher cs, q, h, ref, hmem => by
    have h2 : Except.map Predicate.orP (buildPredicateList cs) = Except.ok q := h
    cases hcs : buildPredicateList cs with
    | error e => rw [hcs] at h2; exact Except.noConfusion h2
    | ok qs => exact buildPredicateList_ok_refs cs qs hcs ref hmem
  | ProtoPredicate.singlePredicate iref v, q, h, ref, hmem => by
    have hr : ref = iref := by
      have h1 : ref ∈ [iref] := hmem
      simpa using h1
    subst hr
    cases hres : resolveDataInput ref with
    | none =>
      have h4 : (match resolveDataInput ref with
          | none => (Except.error (BuildError.unknownInput ref.name) : Except BuildError Predicate)
          | some input =>
            match performDataInputValidation { name := ref.name } "" with
            | ValidationStatus.okStatus => Except.ok (Predicate.singleP input v)
            | ValidationStatus.rejected _ =>
              Except.error (BuildError.disallowedInput ref.name)) = Except.ok q := h
      rw [hres] at h4
      exact Except.noConfusion h4
    | some i => rfl

/-- A successfully built child list resolved every DataInput reference. -/
theorem buildPredicateList_ok_refs : ∀ (cs : List ProtoPredicate) (qs : List Predicate),
    buildPredicateList cs = Except.ok qs →
    ∀ ref, ref ∈ predicateListRefs cs → (resolveDataInput ref).isSome = true
  | [], _, _, ref, hmem => absurd hmem (List.not_mem_nil ref)
  | c :: rest, qs, h, ref, hmem => by
    have h2 : ((do
        let p ← buildPredicate c
        let ps ← buildPredicateList rest
        Except.ok (p :: ps)) : Except BuildError (List Predicate)) = Except.ok qs := h
    cases hc : buildPredicate c with
    | error e => rw [hc] at h2; exact absurd h2 (by simp [Bind.bind, Except.bind])
    | ok p =>
      rw [hc] at h2
      simp only [Bind.bind, Except.bind] at h2
      cases hrest : buildPredicateList rest with
      | error e => rw [hrest] at h2; exact Except.noConfusion h2
      | ok ps =>
        have hmem2 : ref ∈ predicateRefs c ++ predicateListRefs rest := hmem
        rcases List.mem_append.mp hmem2 with hm1 | hm1
        · exact buildPredicate_ok_refs c p hc ref hm1
        · exact buildPredicateList_ok_refs rest ps hrest ref hm1

end

/-- A successfully built matcher list resolved every DataInput reference. -/
theorem buildMatchers_ok_refs {reg : FilterFactoryRegistry} :
    ∀ (ms : List ProtoMatcher) (nid : Nat) (res : List Matcher × Nat),
    buildMatchers reg nid ms = .ok res →
    ∀ ref, ref ∈ matchersRefs ms → (resolveDataInput ref).isSome = true := by
  intro ms
  induction ms with
  | nil => intro nid res h ref hmem; exact absurd hmem (List.not_mem_nil ref)
  | cons m rest ih =>
    intro nid res h ref hmem
    simp only [buildMatchers] at h
    cases hp : buildPredicate m.predicate with
    | error e => rw [hp] at h; exact absurd h (by simp [Bind.bind, Except.bind])
    | ok p =>
      rw [hp] at h
      simp only [Bind.bind, Except.bind] at h
      cases hrest : buildMatchers reg (nid + 1) rest with
      | error e => rw [hrest] at h; exact Except.noConfusion h
      | ok pr =>
        have hmem2 : ref ∈ predicateRefs m.predicate ++ matchersRefs rest := by
          simpa [matchersRefs] using hmem
        rcases List.mem_append.mp hmem2 with hm1 | hm1
        · exact buildPredicate_ok_refs m.predicate p hp ref hm1
        · exact ih (nid + 1) pr hrest ref hm1

/-- A successful virtual-host build resolved every DataInput reference. -/
theorem buildVirtualHosts_ok_refs {reg : FilterFactoryRegistry} :
    ∀ (vhs : List ProtoVirtualHost) (nid : Nat) (res : List VirtualHost × Nat),
    buildVirtualHosts reg nid vhs = .ok res →
    ∀ ref, ref ∈ vhs.flatMap (fun vh => matchersRefs vh.routes) →
      (resolveDataInput ref).isSome = true := by
  intro vhs
  induction vhs with
  | nil => intro nid res h ref hmem; exact absurd hmem (List.not_mem_nil ref)
  | cons vh rest ih =>
    intro nid res h ref hmem
    simp only [buildVirtualHosts] at h
    cases hm : buildMatchers reg nid vh.routes with
    | error e => rw [hm] at h; exact absurd h (by simp [Bind.bind, Except.bind])
    | ok p =>
      rw [hm] at h
      simp only [Bind.bind, Except.bind] at h
      obtain ⟨ms, nid1⟩ := p
      dsimp only at h
      cases hrest : buildVirtualHosts reg nid1 rest with
      | error e => rw [hrest] at h; exact Except.noConfusion h
      | ok pr =>
        have hmem2 : ref ∈ matchersRefs vh.routes
            ++ rest.flatMap (fun v => matchersRefs v.routes) := by
          simpa using hmem
        rcases List.mem_append.mp hmem2 with hm1 | hm1
        · exact buildMatchers_ok_refs vh.routes nid (ms, nid1) hm ref hm1
        · exact ih nid1 pr hrest ref hm1

/-- A successful configuration build resolved every DataInput reference
occurring anywhere in the descriptor. -/
theorem build_ok_refs {reg : FilterFactoryRegistry} {cfg : ProtoRouteConfiguration}
    {built : RouteConfiguration} (h : buildRouteConfiguration reg cfg = .ok built) :
    ∀ ref, ref ∈ configRefs cfg → (resolveDataInput ref).isSome = true := by
  obtain ⟨p, hvh, hfb⟩ := build_ok_parts h
  intro ref hmem
  rcases List.mem_append.mp hmem with hm1 | hm1
  · exact buildVirtualHosts_ok_refs cfg.virtual_hosts 0 p hvh ref hm1
  · cases hro : cfg.routes with
    | none =>
      rw [hro] at hm1
      exact absurd hm1 (List.not_mem_nil ref)
    | some ms =>
      rw [hro] at hm1
      obtain ⟨q, hq⟩ := hfb ms hro
      exact buildMatchers_ok_refs ms p.2 q hq ref (by simpa using hm1)

/-- The domain multiset of one configured virtual host is contained in the
domain list of the whole configuration. -/
theorem count_le_allDomains {vhs : List ProtoVirtualHost} {vh : ProtoVirtualHost}
    (h : vh ∈ vhs) (x : String) : vh.hosts.count x ≤ (allDomains vhs).count x := by
  induction vhs with
  | nil => exact absurd h (List.not_mem_nil vh)
  | cons v rest ih =>
    have hcons : allDomains (v :: rest) = v.hosts ++ allDomains rest := by
      simp [allDomains]
    rcases List.mem_cons.mp h with h1 | h1
    · subst h1
      rw [hcons, List.count_append]
      exact Nat.le_add_right _ _
    · calc vh.hosts.count x ≤ (allDomains rest).count x := ih h1
        _ ≤ (allDomains (v :: rest)).count x := by
            rw [hcons, List.count_append]
            exact Nat.le_add_left _ _

/-- Evaluation of a one-element matcher list is the predicate guarding its
action. -/
theorem evalMatchers_singleton (m : Matcher) (r : Request) :
    evalMatchers [m] r
      = if evalPredicate r m.predicate = true then some m.action else none := by
  unfold evalMatchers
  cases h : evalPredicate r m.predicate with
  | true => simp [List.find?, h]
  | false => simp [List.find?, h]

/-- C10: the routing-context validation visitor accepts the built-in
service/host match DataInput: performDataInputValidation applied to the
ServiceMatchDataInputFactory returns OK for the empty type-url string,
and indeed for every type url, so configurations using the built-in
host input are never rejected by the visitor. -/
theorem c10_visitor_accepts_service_input :
    performDataInputValidation serviceMatchDataInputFactory "" = .okStatus
    ∧ ∀ url, performDataInputValidation serviceMatchDataInputFactory url = .okStatus :=
  ⟨rfl, fun _ => rfl⟩

/-- C7: a Single predicate whose DataInput yields no value for the request
evaluates to false without error, and a request lacking the required
properties (host service_0, method method_0, no properties) fails to
match, so routeEntry returns none. -/
theorem c7_unavailable_input_is_false :
    (∀ (r : Request) (input : DataInput) (v : String),
      DataInput.eval input r = none → evalPredicate r (.singleP input v) = false)
    ∧ routeEntry testConfig (fakeRequest "service_0" "method_0" []) = none := by
  refine ⟨?_, rfl⟩
  intro r input v h
  show (DataInput.eval input r == some v) = false
  rw [h]
  rfl

/-- Witness for C7: the property DataInput for key_0 is unavailable on a
request without properties, and the predicate evaluates false there. -/
theorem c7_witness :
    evalPredicate (fakeRequest "service_0" "method_0" [])
      (.singleP (.propertyInput "key_0") "value_0") = false :=
  c7_unavailable_input_is_false.1 (fakeRequest "service_0" "method_0" [])
    (.propertyInput "key_0") "value_0" rfl

/-- C8: request-time matching is total: every result of routeEntry is
either none or one of the RouteEntry instances built into the
configuration, and in particular the no-host-match, method-mismatch and
missing-property requests of the tests all yield none rather than an
error. -/
theorem c8_matching_total_never_raises :
    (∀ (cfg : RouteConfiguration) (r : Request) (e : RouteEntry),
      routeEntry cfg r = some e → e ∈ configEntries cfg)
    ∧ routeEntry testConfig (fakeRequest "prefix_service_1" "method_0" [("key_0", "value_0")]) = none
    ∧ routeEntry testConfig (fakeRequest "service_0" "method_x" [("key_0", "value_0")]) = none
    ∧ routeEntry testConfig (fakeRequest "service_0" "method_0" [("key_2", "value_2")]) = none
    ∧ routeEntry noDefaultHostConfig
        (fakeRequest "any_service" "method_0" [("key_0", "value_0")]) = none :=
  ⟨fun _ _ _ h => routeEntry_mem h, rfl, rfl, rfl, rfl⟩

/-- Witness for C8: the matched entry of a concrete matching request is
one of the configuration's built entries. -/
theorem c8_witness : testEntryService ∈ configEntries testConfig :=
  c8_matching_total_never_raises.1 testConfig
    (fakeRequest "service_0" "method_0" [("key_0", "value_0")]) testEntryService rfl

/-- C2: routeEntry is deterministic, and the RouteEntry references it
returns are shared: the two test requests that match the service route
through the two different OR branches receive the same built instance
(and likewise for the prefix, suffix, and catch-all routes); the
identities of the four built entries are pairwise distinct, so equality
of returned entries really is instance identity; and every invocation
of the same RouteMatchAction factory callback returns an action
wrapping the identical RouteEntry instance. -/
theorem c2_route_entry_shared_and_deterministic :
    (∀ (cfg : RouteConfiguration) (r1 r2 : Request), r1 = r2 →
      routeEntry cfg r1 = routeEntry cfg r2)
    ∧ (routeEntry testConfig (fakeRequest "service_0" "method_0" [("key_0", "value_0")])
        = routeEntry testConfig (fakeRequest "service_0" "method_0" [("key_1", "value_1")])
      ∧ routeEntry testConfig (fakeRequest "service_0" "method_0" [("key_0", "value_0")])
        = some testEntryService)
    ∧ (routeEntry testConfig (fakeRequest "prefix_service_0" "method_0" [("key_0", "value_0")])
        = routeEntry testConfig (fakeRequest "prefix_service_0" "method_0" [("key_1", "value_1")])
      ∧ routeEntry testConfig (fakeRequest "prefix_service_0" "method_0" [("key_0", "value_0")])
        = some testEntryPrefix)
    ∧ (routeEntry testConfig (fakeRequest "service_0_suffix" "method_0" [("key_0", "value_0")])
        = routeEntry testConfig (fakeRequest "service_0_suffix" "method_0" [("key_1", "value_1")])
      ∧ routeEntry testConfig (fakeRequest "service_0_suffix" "method_0" [("key_0", "value_0")])
        = some testEntrySuffix)
    ∧ (routeEntry testConfig (fakeRequest "any_service" "method_0" [("catch_all", "catch_all")])
        = routeEntry testConfig (fakeRequest "any_service" "method_1" [("catch_all", "catch_all")])
      ∧ routeEntry testConfig (fakeRequest "any_service" "method_0" [("catch_all", "catch_all")])
        = some testEntryCatchAll)
    ∧ ((configEntries testConfig).map RouteEntry.identity).Nodup
    ∧ (∀ (reg : FilterFactoryRegistry) (proto : ProtoRouteAction) (i j : Nat),
        (createActionFactoryCb reg proto i).route = (createActionFactoryCb reg proto j).route) :=
  ⟨fun _ _ _ h => by rw [h], ⟨rfl, rfl⟩, ⟨rfl, rfl⟩, ⟨rfl, rfl⟩, ⟨rfl, rfl⟩,
    by decide, fun _ _ _ _ => rfl⟩

/-- Witness for C2: determinism applied at a concrete request. -/
theorem c2_witness :
    routeEntry testConfig (fakeRequest "service_0" "method_0" [("key_0", "value_0")])
      = routeEntry testConfig (fakeRequest "service_0" "method_0" [("key_0", "value_0")]) :=
  c2_route_entry_shared_and_deterministic.1 testConfig
    (fakeRequest "service_0" "method_0" [("key_0", "value_0")])
    (fakeRequest "service_0" "method_0" [("key_0", "value_0")]) rfl

/-- C9: perFilterConfig returns the object built once at construction time
when a blob was supplied and a registered factory produced an object
(the first supplied blob for the name determines the stored object),
and returns none, without raising, in each absence case: no blob for
the filter, no registered factory, or a factory producing no object;
the concrete mock-filter scenarios of the tests behave accordingly. -/
theorem c9_per_filter_config_absence_and_presence :
    (∀ (reg : FilterFactoryRegistry) (idn : Nat) (proto : ProtoRouteAction) (n : String),
      (∀ p ∈ proto.per_filter_config, p.1 ≠ n) →
      (buildRouteEntry reg idn proto).perFilterConfig n = none)
    ∧ (∀ (reg : FilterFactoryRegistry) (idn : Nat) (proto : ProtoRouteAction) (n : String),
        reg n = none → (buildRouteEntry reg idn proto).perFilterConfig n = none)
    ∧ (∀ (reg : FilterFactoryRegistry) (idn : Nat) (proto : ProtoRouteAction) (n : String)
        (f : FilterConfigFactory), reg n = some f →
        (∀ blob, (n, blob) ∈ proto.per_filter_config → makeFilterConfig f blob = none) →
        (buildRouteEntry reg idn proto).perFilterConfig n = none)
    ∧ (∀ (reg : FilterFactoryRegistry) (idn : Nat) (proto : ProtoRouteAction) (n : String)
        (f : FilterConfigFactory) (blob : String) (c : PerFilterConfig)
        (pre post : List (String × String)), reg n = some f →
        makeFilterConfig f blob = some c →
        proto.per_filter_config = pre ++ (n, blob) :: post →
        (∀ p ∈ pre, p.1 ≠ n) →
        (buildRouteEntry reg idn proto).perFilterConfig n = some c)
    ∧ (buildRouteEntry mockRegistry 0 perFilterProtoAction).perFilterConfig mockFilterName
        = some mockFilterConfig
    ∧ (buildRouteEntry mockNoProtoRegistry 0 perFilterProtoAction).perFilterConfig mockFilterName
        = none
    ∧ (buildRouteEntry mockNullConfigRegistry 0 perFilterProtoAction).perFilterConfig mockFilterName
        = none
    ∧ (buildRouteEntry emptyFilterRegistry 0 perFilterProtoAction).perFilterConfig mockFilterName
        = none := by
  refine ⟨?_, ?_, ?_, ?_, rfl, rfl, rfl, rfl⟩
  · intro reg idn proto n h
    show ((buildPerFilterConfigs reg proto.per_filter_config).find?
      (fun p => p.1 == n)).map Prod.snd = none
    rw [buildPerFilterConfigs_no_blob reg n proto.per_filter_config h]
    rfl
  · intro reg idn proto n h
    show ((buildPerFilterConfigs reg proto.per_filter_config).find?
      (fun p => p.1 == n)).map Prod.snd = none
    rw [buildPerFilterConfigs_no_factory reg n h proto.per_filter_config]
    rfl
  · intro reg idn proto n f hreg h
    show ((buildPerFilterConfigs reg proto.per_filter_config).find?
      (fun p => p.1 == n)).map Prod.snd = none
    rw [buildPerFilterConfigs_no_object reg n f hreg proto.per_filter_config h]
    rfl
  · intro reg idn proto n f blob c pre post hreg hmk hblobs hpre
    show ((buildPerFilterConfigs reg proto.per_filter_config).find?
      (fun p => p.1 == n)).map Prod.snd = some c
    rw [hblobs, buildPerFilterConfigs_found reg n f blob c hreg hmk pre post hpre]
    rfl

/-- Witness for C9: the presence case and the three absence cases applied
to the concrete mock-filter scenarios. -/
theorem c9_witness :
    (buildRouteEntry mockRegistry 0 perFilterProtoAction).perFilterConfig mockFilterName
      = some mockFilterConfig
    ∧ (buildRouteEntry mockRegistry 0 perFilterProtoAction).perFilterConfig "other_filter"
      = none
    ∧ (buildRouteEntry emptyFilterRegistry 0 perFilterProtoAction).perFilterConfig mockFilterName
      = none
    ∧ (buildRouteEntry mockNullConfigRegistry 0 perFilterProtoAction).perFilterConfig mockFilterName
      = none :=
  ⟨c9_per_filter_config_absence_and_presence.2.2.2.1 mockRegistry 0 perFilterProtoAction
      mockFilterName mockFilterFactory "key_0: value_0" mockFilterConfig [] [] rfl rfl rfl
      (fun p hp => absurd hp (List.not_mem_nil p)),
    c9_per_filter_config_absence_and_presence.1 mockRegistry 0 perFilterProtoAction
      "other_filter" (by decide),
    c9_per_filter_config_absence_and_presence.2.1 emptyFilterRegistry 0 perFilterProtoAction
      mockFilterName rfl,
    c9_per_filter_config_absence_and_presence.2.2.1 mockNullConfigRegistry 0 perFilterProtoAction
      mockFilterName mockNullConfigFactory rfl (fun _ _ => rfl)⟩

/-- C6: a configuration referencing a DataInput name with no registered
factory fails to build: the concrete unknown-input configuration of the
tests yields the unknown-input error and no routing structure, and in
general any unresolvable reference anywhere in the descriptor forces
the build to return an error (so an unknown DataInput never survives to
request time). -/
theorem c6_unknown_input_fails_build :
    buildRouteConfiguration emptyFilterRegistry unknownInputProtoConfig
      = .error (.unknownInput "envoy.matching.generic_proxy.input.unknown_input")
    ∧ (∀ (reg : FilterFactoryRegistry) (cfg : ProtoRouteConfiguration) (ref : DataInputRef),
        ref ∈ configRefs cfg → resolveDataInput ref = none →
        ∃ e, buildRouteConfiguration reg cfg = .error e) := by
  refine ⟨rfl, ?_⟩
  intro reg cfg ref hmem hres
  cases hb : buildRouteConfiguration reg cfg with
  | error e => exact ⟨e, rfl⟩
  | ok built =>
    have h1 := build_ok_refs hb ref hmem
    rw [hres] at h1
    exact absurd h1 (by simp)

/-- Witness for C6: the generic statement applied to the concrete
unknown-input configuration. -/
theorem c6_witness :
    ∃ e, buildRouteConfiguration emptyFilterRegistry unknownInputProtoConfig = .error e :=
  c6_unknown_input_fails_build.2 emptyFilterRegistry unknownInputProtoConfig
    { name := "envoy.matching.generic_proxy.input.unknown_input", propertyKey := "" }
    (by decide) rfl

/-- C4: a configuration with a repeated host domain anywhere
(case-sensitive) or with an empty host domain fails to build with an
error and produces no routing structure; the concrete repeated-host and
empty-host configurations of the tests produce the duplicate-host and
empty-host errors, whose messages name the offending domain (for
duplicates) and the configuration. -/
theorem c4_duplicate_or_empty_host_fails_build :
    (∀ (reg : FilterFactoryRegistry) (cfg : ProtoRouteConfiguration),
      (¬ (allDomains cfg.virtual_hosts).Nodup ∨ "" ∈ allDomains cfg.virtual_hosts) →
      ∃ e, buildRouteConfiguration reg cfg = .error e)
    ∧ buildRouteConfiguration emptyFilterRegistry repeatedHostProtoConfig
        = .error (.duplicateHost "service_0" "test_matcher_tree")
    ∧ (BuildError.duplicateHost "service_0" "test_matcher_tree").message
        = "Only unique values for host are permitted. Duplicate entry of domain service_0 in route test_matcher_tree"
    ∧ (∀ d n, (BuildError.duplicateHost d n).message
        = "Only unique values for host are permitted. Duplicate entry of domain "
          ++ d ++ " in route " ++ n)
    ∧ buildRouteConfiguration emptyFilterRegistry emptyHostProtoConfig
        = .error (.emptyHost "test_matcher_tree")
    ∧ (BuildError.emptyHost "test_matcher_tree").message
        = "Invalid empty host name in route test_matcher_tree" := by
  refine ⟨?_, rfl, rfl, fun _ _ => rfl, rfl, rfl⟩
  intro reg cfg hbad
  cases hb : buildRouteConfiguration reg cfg with
  | error e => exact ⟨e, rfl⟩
  | ok built =>
    exfalso
    obtain ⟨w, hcd, _⟩ := build_ok_domains hb
    obtain ⟨hnd, hprops, _, _⟩ :=
      checkDomains_ok cfg.name (allDomains cfg.virtual_hosts) [] false w hcd
    rcases hbad with hbad | hbad
    · exact hbad hnd
    · exact (hprops "" hbad).1 rfl

/-- Witness for C4: the generic statement applied to the concrete
repeated-host configuration. -/
theorem c4_witness :
    ∃ e, buildRouteConfiguration emptyFilterRegistry repeatedHostProtoConfig = .error e :=
  c4_duplicate_or_empty_host_fails_build.1 emptyFilterRegistry repeatedHostProtoConfig
    (Or.inl (by decide))

/-- C5: a virtual host listing the catch-all domain more than once makes
the build fail (with the multiple-wildcard error on the concrete test
configuration), and a top-level fallback matcher list configured
together with a catch-all virtual host makes the build fail with the
conflicting-catch-all error; in both cases no routing structure is
produced. -/
theorem c5_wildcard_rules_fail_build :
    buildRouteConfiguration emptyFilterRegistry multipleWildcardProtoConfig
      = .error (.multipleWildcard "test_matcher_tree")
    ∧ (BuildError.multipleWildcard "test_matcher_tree").message
      = "Only a single wildcard domain is permitted in route test_matcher_tree"
    ∧ buildRouteConfiguration emptyFilterRegistry conflictingCatchAllProtoConfig
      = .error (.conflictingCatchAll "test_matcher_tree")
    ∧ (∀ (reg : FilterFactoryRegistry) (cfg : ProtoRouteConfiguration)
        (vh : ProtoVirtualHost), vh ∈ cfg.virtual_hosts → 2 ≤ vh.hosts.count "*" →
        ∃ e, buildRouteConfiguration reg cfg = .error e)
    ∧ (∀ (reg : FilterFactoryRegistry) (cfg : ProtoRouteConfiguration) (w : Bool),
        cfg.routes.isSome = true →
        checkDomains cfg.name (allDomains cfg.virtual_hosts) [] false = .ok w →
        "*" ∈ allDomains cfg.virtual_hosts →
        buildRouteConfiguration reg cfg = .error (.conflictingCatchAll cfg.name)) := by
  refine ⟨rfl, rfl, rfl, ?_, ?_⟩
  · intro reg cfg vh hvh hcount
    cases hb : buildRouteConfiguration reg cfg with
    | error e => exact ⟨e, rfl⟩
    | ok built =>
      exfalso
      obtain ⟨w, hcd, _⟩ := build_ok_domains hb
      obtain ⟨hnd, _, _, _⟩ :=
        checkDomains_ok cfg.name (allDomains cfg.virtual_hosts) [] false w hcd
      have h1 : (allDomains cfg.virtual_hosts).count "*" ≤ 1 :=
        List.nodup_iff_count_le_one.mp hnd "*"
      have h2 : 2 ≤ (allDomains cfg.virtual_hosts).count "*" :=
        Nat.le_trans hcount (count_le_allDomains hvh "*")
      exact absurd (Nat.le_trans h2 h1) (by decide)
  · intro reg cfg w hsome hcd hmem
    obtain ⟨_, _, _, hflag⟩ :=
      checkDomains_ok cfg.name (allDomains cfg.virtual_hosts) [] false w hcd
    have hw : w = true := by
      rw [hflag]
      simp only [Bool.false_or]
      exact List.elem_eq_true_of_mem hmem
    unfold buildRouteConfiguration
    rw [hcd]
    simp only [Bind.bind, Except.bind]
    rw [if_pos (by simp [hsome, hw])]

/-- Witness for C5: the generic statements applied to the concrete
multiple-wildcard and fallback-conflict configurations. -/
theorem c5_witness :
    (∃ e, buildRouteConfiguration emptyFilterRegistry multipleWildcardProtoConfig = .error e)
    ∧ buildRouteConfiguration emptyFilterRegistry conflictingCatchAllProtoConfig
      = .error (.conflictingCatchAll "test_matcher_tree") :=
  ⟨c5_wildcard_rules_fail_build.2.2.2.1 emptyFilterRegistry multipleWildcardProtoConfig
      multipleWildcardVHost (List.mem_cons_self _ _) (by decide),
    c5_wildcard_rules_fail_build.2.2.2.2 emptyFilterRegistry conflictingCatchAllProtoConfig
      true rfl rfl (by decide)⟩

/-- C1: virtual-host resolution precedence is exact domain match, else a
longest-matching prefix-wildcard domain, else a longest-matching
suffix-wildcard domain, else the catch-all if present (else none); on
the test configuration, the hosts service_0, prefix_service_0,
service_0_suffix and any_service resolve to the virtual hosts routing
to clusters cluster_0, cluster_1, cluster_2 and cluster_3. -/
theorem c1_domain_resolution_precedence :
    (∀ (vhs : List VirtualHost) (host : String) (vh : VirtualHost),
      findExactVHost vhs host = some vh → findVirtualHost vhs host = some vh)
    ∧ (∀ (vhs : List VirtualHost) (host : String),
        findExactVHost vhs host = none → prefixCandidates vhs host ≠ [] →
        ∃ c, c ∈ prefixCandidates vhs host
          ∧ (∀ d ∈ prefixCandidates vhs host, d.1.data.length ≤ c.1.data.length)
          ∧ findVirtualHost vhs host = some c.2)
    ∧ (∀ (vhs : List VirtualHost) (host : String),
        findExactVHost vhs host = none → prefixCandidates vhs host = [] →
        suffixCandidates vhs host ≠ [] →
        ∃ c, c ∈ suffixCandidates vhs host
          ∧ (∀ d ∈ suffixCandidates vhs host, d.1.data.length ≤ c.1.data.length)
          ∧ findVirtualHost vhs host = some c.2)
    ∧ (∀ (vhs : List VirtualHost) (host : String),
        findExactVHost vhs host = none → prefixCandidates vhs host = [] →
        suffixCandidates vhs host = [] →
        findVirtualHost vhs host = findCatchAllVHost vhs)
    ∧ routeEntry testConfig (fakeRequest "service_0" "method_0" [("key_0", "value_0")])
        = some testEntryService
    ∧ routeEntry testConfig (fakeRequest "prefix_service_0" "method_0" [("key_0", "value_0")])
        = some testEntryPrefix
    ∧ routeEntry testConfig (fakeRequest "service_0_suffix" "method_0" [("key_0", "value_0")])
        = some testEntrySuffix
    ∧ routeEntry testConfig (fakeRequest "any_service" "method_0" [("catch_all", "catch_all")])
        = some testEntryCatchAll
    ∧ testEntryService.clusterName = "cluster_0"
    ∧ testEntryPrefix.clusterName = "cluster_1"
    ∧ testEntrySuffix.clusterName = "cluster_2"
    ∧ testEntryCatchAll.clusterName = "cluster_3" := by
  refine ⟨?_, ?_, ?_, ?_, rfl, rfl, rfl, rfl, rfl, rfl, rfl, rfl⟩
  · intro vhs host vh h
    unfold findVirtualHost
    rw [h]
  · intro vhs host hex hne
    cases hp : pickLongest (prefixCandidates vhs host) with
    | none => exact absurd (pickLongest_eq_none.mp hp) hne
    | some c =>
      obtain ⟨hmem, hmax⟩ := pickLongest_mem hp
      refine ⟨c, hmem, hmax, ?_⟩
      unfold findVirtualHost
      rw [hex]
      dsimp only
      rw [hp]
  · intro vhs host hex hpre hne
    cases hs : pickLongest (suffixCandidates vhs host) with
    | none => exact absurd (pickLongest_eq_none.mp hs) hne
    | some c =>
      obtain ⟨hmem, hmax⟩ := pickLongest_mem hs
      refine ⟨c, hmem, hmax, ?_⟩
      unfold findVirtualHost
      rw [hex]
      dsimp only
      rw [hpre]
      dsimp only [pickLongest]
      rw [hs]
  · intro vhs host hex hpre hsuf
    unfold findVirtualHost
    rw [hex]
    dsimp only
    rw [hpre]
    dsimp only [pickLongest]
    rw [hsuf]
    dsimp only [pickLongest]

/-- Witness for C1: the precedence statements applied on the test
configuration at the four test hosts. -/
theorem c1_witness :
    (∃ vh, findExactVHost testConfig.virtual_hosts "service_0" = some vh
      ∧ findVirtualHost testConfig.virtual_hosts "service_0" = some vh)
    ∧ (∃ c, c ∈ prefixCandidates testConfig.virtual_hosts "prefix_service_0"
      ∧ (∀ d ∈ prefixCandidates testConfig.virtual_hosts "prefix_service_0",
          d.1.data.length ≤ c.1.data.length)
      ∧ findVirtualHost testConfig.virtual_hosts "prefix_service_0" = some c.2)
    ∧ (∃ c, c ∈ suffixCandidates testConfig.virtual_hosts "service_0_suffix"
      ∧ (∀ d ∈ suffixCandidates testConfig.virtual_hosts "service_0_suffix",
          d.1.data.length ≤ c.1.data.length)
      ∧ findVirtualHost testConfig.virtual_hosts "service_0_suffix" = some c.2)
    ∧ findVirtualHost testConfig.virtual_hosts "any_service"
        = findCatchAllVHost testConfig.virtual_hosts :=
  ⟨⟨_, rfl, c1_domain_resolution_precedence.1 testConfig.virtual_hosts "service_0" _ rfl⟩,
    c1_domain_resolution_precedence.2.1 testConfig.virtual_hosts "prefix_service_0" rfl
      (List.cons_ne_nil _ _),
    c1_domain_resolution_precedence.2.2.1 testConfig.virtual_hosts "service_0_suffix" rfl rfl
      (List.cons_ne_nil _ _),
    c1_domain_resolution_precedence.2.2.2.1 testConfig.virtual_hosts "any_service" rfl rfl rfl⟩

/-- C3: the And/Or/Single tree of the service virtual host is a
short-circuiting boolean predicate: every request with host service_0,
method method_0 and either key_0 bound to value_0 or key_1 bound to
value_1 yields the RouteEntry with cluster name cluster_0. -/
theorem c3_and_or_tree_matches :
    ∀ props : List (String × String),
      (Request.property (fakeRequest "service_0" "method_0" props) "key_0" = some "value_0"
        ∨ Request.property (fakeRequest "service_0" "method_0" props) "key_1" = some "value_1") →
      routeEntry testConfig (fakeRequest "service_0" "method_0" props) = some testEntryService
      ∧ testEntryService.clusterName = "cluster_0" := by
  intro props h
  refine ⟨?_, rfl⟩
  have h0 : routeEntry testConfig (fakeRequest "service_0" "method_0" props)
      = evalMatchers [{ predicate := testPredicateService, action := testEntryService }]
          (fakeRequest "service_0" "method_0" props) := rfl
  rw [h0, evalMatchers_singleton]
  have h1 : evalPredicate (fakeRequest "service_0" "method_0" props) testPredicateService
      = (((Request.property (fakeRequest "service_0" "method_0" props) "key_0"
            == some "value_0")
          || ((Request.property (fakeRequest "service_0" "method_0" props) "key_1"
            == some "value_1")
          || false)) && true) := rfl
  rw [h1]
  rcases h with h | h
  · rw [h]
    rfl
  · cases hb0 : Request.property (fakeRequest "service_0" "method_0" props) "key_0"
        == some "value_0" with
    | true => rfl
    | false =>
      rw [h]
      rfl

/-- Witness for C3: a request carrying only the second OR branch (key_1
bound to value_1) matches and routes to cluster_0. -/
theorem c3_witness :
    routeEntry testConfig (fakeRequest "service_0" "method_0" [("key_1", "value_1")])
      = some testEntryService
    ∧ testEntryService.clusterName = "cluster_0" :=
  c3_and_or_tree_matches [("key_1", "value_1")] (Or.inr rfl)

end GenericProxy
